import Mathlib

/-!
Shallow embedding of the contact-list screen in src/App.tsx.

The component keeps four pieces of state (useState hooks): the contact
collection `contacts`, and the flags `loading`, `loadingMore` and
`hasMoreData`.  Two operations mutate them:

* `fetchContacts` (lines 23-66): sets `loading := true`, issues one GET,
  on a 2xx response maps the JSON array to contacts (id stringified,
  name and phone copied) and sets `hasMoreData := false`; on any error
  (non-2xx status or thrown exception) substitutes the fixed 10-entry
  mock list and sets `hasMoreData := false`; finally `loading := false`.
  We split it into `fetchStart` (the synchronous prefix before the
  await) and `fetchComplete` (everything that runs when the request
  resolves or rejects), with the outcome abstracted as `FetchResult`.

* `loadMoreContacts` (lines 68-90): returns immediately when
  `!hasMoreData || loadingMore`; otherwise sets `loadingMore := true`
  and schedules a 1000ms timer whose callback closes over the current
  `contacts` value.  The callback (`timerBody`) appends 5 synthetic
  records derived from `currentCount = contacts.length` (the captured
  list), clears `loadingMore`, and clears `hasMoreData` when
  `contacts.length + 5 >= 30` (again on the captured list).

The UI wiring (lines 92-148) determines when these can run: the mount
effect calls `fetchContacts` once; pull-to-refresh and the retry button
call it again, but only while the FlatList (or the empty view inside it)
is rendered, which requires `loading = false` because line 108 returns
the spinner early when `loading` is true; `onEndReached` is wired to
`loadMoreContacts` only when `hasMoreData` is true (line 124) and again
only when the FlatList is rendered.  `step` turns these four event
sources into a total deterministic transition function, with a pending
timer queue (`timers`, each entry the captured contacts list) and a
`fetchPending` flag recording an in-flight request.
-/

namespace ContactApp

/-- The `User` interface of App.tsx (lines 4-8). -/
structure User where
  id : String
  name : String
  phone : String
deriving DecidableEq

/-- A JSON id field: the endpoint returns `id: number|string`. -/
inductive RespId where
  | num : Nat → RespId
  | str : String → RespId
deriving DecidableEq

/-- JavaScript `x.toString()` on an id value. -/
def RespId.toString : RespId → String
  | RespId.num n => Nat.repr n
  | RespId.str s => s

/-- One element of a successfully parsed JSON response array. -/
structure RespUser where
  id : RespId
  name : String
  phone : String
deriving DecidableEq

/-- The mapping applied per element at lines 35-39:
`{ id: user.id.toString(), name: user.name, phone: user.phone }`. -/
def mapUser (u : RespUser) : User :=
  { id := u.id.toString, name := u.name, phone := u.phone }

/-- The `mockContacts` fallback array, transcribed from lines 48-59. -/
def mockContacts : List User :=
  [ { id := "1", name := "John Smith", phone := "(123) 456-7890" },
    { id := "2", name := "Sarah Johnson", phone := "(234) 567-8901" },
    { id := "3", name := "Michael Brown", phone := "(345) 678-9012" },
    { id := "4", name := "Emily Davis", phone := "(456) 789-0123" },
    { id := "5", name := "David Wilson", phone := "(567) 890-1234" },
    { id := "6", name := "Lisa Taylor", phone := "(678) 901-2345" },
    { id := "7", name := "Robert Anderson", phone := "(789) 012-3456" },
    { id := "8", name := "Jennifer Thomas", phone := "(890) 123-4567" },
    { id := "9", name := "Daniel Jackson", phone := "(901) 234-5678" },
    { id := "10", name := "Karen White", phone := "(012) 345-6789" } ]

/-- Outcome of the single GET request: a 2xx response with a parsed JSON
array, or any failure (non-2xx status throws at line 30, and a network
or parse exception also lands in the same catch block). -/
inductive FetchResult where
  | success : List RespUser → FetchResult
  | failure : FetchResult
deriving DecidableEq

/-- The component state: the four useState hooks (lines 18-21), plus
`fetchPending` (a GET is in flight) and `timers` (pending setTimeout
callbacks, each holding the `contacts` list its closure captured). -/
structure ListState where
  contacts : List User
  loading : Bool
  loadingMore : Bool
  hasMoreData : Bool
  fetchPending : Bool
  timers : List (List User)
deriving DecidableEq

/-- Synchronous prefix of `fetchContacts` (line 25): `setLoading(true)`
and the request goes out. -/
def fetchStart (s : ListState) : ListState :=
  { s with loading := true, fetchPending := true }

/-- The contacts produced when the request settles: the mapped response
on success (lines 35-41), the mock list on failure (line 61). -/
def contactsOfResult : FetchResult → List User
  | FetchResult.success data => data.map mapUser
  | FetchResult.failure => mockContacts

/-- Continuation of `fetchContacts` after the request settles: both the
try branch (lines 41-43) and the catch branch (lines 61-62) replace the
collection and set `hasMoreData := false`; the finally block (line 64)
sets `loading := false`. -/
def fetchComplete (r : FetchResult) (s : ListState) : ListState :=
  { s with
    contacts := contactsOfResult r
    hasMoreData := false
    loading := false
    fetchPending := false }

/-- Phone string for offset `i` (line 80):
`(999) ${i}${i}${i}-${i}${i}${i}${i}`. -/
def additionalPhone (i : Nat) : String :=
  let d := Nat.repr i
  "(999) " ++ d ++ d ++ d ++ "-" ++ d ++ d ++ d ++ d

/-- The record built for offset `i` on top of `currentCount`
(lines 77-81). -/
def additionalContact (currentCount i : Nat) : User :=
  { id := Nat.repr (currentCount + i + 1)
    name := "Additional User " ++ Nat.repr (currentCount + i + 1)
    phone := additionalPhone i }

/-- `Array.from({length: 5}, (_, i) => ...)` at line 77. -/
def additionalContacts (currentCount : Nat) : List User :=
  (List.range 5).map (additionalContact currentCount)

/-- Synchronous part of `loadMoreContacts` (lines 68-75): the guard
returns unchanged when `!hasMoreData || loadingMore`; otherwise
`setLoadingMore(true)` and a timer is scheduled whose closure captures
the current `contacts` list. -/
def loadMoreContacts (s : ListState) : ListState :=
  if !s.hasMoreData || s.loadingMore then s
  else { s with loadingMore := true, timers := s.timers ++ [s.contacts] }

/-- The setTimeout callback (lines 75-89): `currentCount` is the length
of the captured `contacts`; 5 synthetic records are appended to the
live collection (the functional `setContacts` update at line 83);
`loadingMore` is cleared; `hasMoreData` is cleared when the captured
`contacts.length + additionalContacts.length >= 30` (line 86). -/
def timerBody (captured : List User) (s : ListState) : ListState :=
  let currentCount := captured.length
  let additional := additionalContacts currentCount
  let s1 := { s with contacts := s.contacts ++ additional, loadingMore := false }
  if 30 ≤ currentCount + additional.length then { s1 with hasMoreData := false }
  else s1

/-- The four event sources of the screen. -/
inductive Event where
  | refresh
  | fetchResolve : FetchResult → Event
  | scrollEnd
  | timerFire
deriving DecidableEq

/-- One event dispatch.  `refresh` covers pull-to-refresh (line 144) and
the retry button (line 137), both reachable only while the FlatList is
rendered, i.e. `loading = false` (line 108 returns the spinner early).
`scrollEnd` is `onEndReached`, wired to `loadMoreContacts` only when the
FlatList is rendered and `hasMoreData` is true (line 124).
`fetchResolve` settles the in-flight request; `timerFire` runs the
oldest pending setTimeout callback. -/
def step (s : ListState) : Event → ListState
  | Event.refresh => if s.loading then s else fetchStart s
  | Event.fetchResolve r => if s.fetchPending then fetchComplete r s else s
  | Event.scrollEnd =>
      if s.loading then s
      else if s.hasMoreData then loadMoreContacts s else s
  | Event.timerFire =>
      match s.timers with
      | [] => s
      | captured :: rest => timerBody captured { s with timers := rest }

/-- State at mount: useState initial values (lines 18-21), with the
mount effect (line 93) having already called `fetchContacts`, so
`loading` is true and a request is in flight. -/
def initialState : ListState :=
  { contacts := []
    loading := true
    loadingMore := false
    hasMoreData := true
    fetchPending := true
    timers := [] }

/-- States reachable from mount under any interleaving of events. -/
inductive Reachable : ListState → Prop where
  | init : Reachable initialState
  | next : (s : ListState) → (e : Event) → Reachable s → Reachable (step s e)

/-- Core invariant of the screen: no pagination fetch is ever in flight
(`loadingMore` stays false and the timer queue stays empty), and
`hasMoreData` can only be true while the initial spinner is up.  The
last conjunct is what makes the pagination path dead: the FlatList is
not rendered while `loading` is true, and once a fetch resolves it sets
`hasMoreData := false`. -/
theorem reachable_inv {s : ListState} (h : Reachable s) :
    s.loadingMore = false ∧ s.timers = [] ∧ (s.hasMoreData = true → s.loading = true) := by
  induction h with
  | init => exact ⟨rfl, rfl, fun _ => rfl⟩
  | next t e _ ih =>
      obtain ⟨hm, ht, hmd⟩ := ih
      cases e with
      | refresh =>
          cases hl : t.loading with
          | true =>
              have hs : step t Event.refresh = t := by simp [step, hl]
              rw [hs]; exact ⟨hm, ht, hmd⟩
          | false =>
              refine ⟨?_, ?_, ?_⟩ <;> simp [step, hl, fetchStart, hm, ht]
      | fetchResolve r =>
          cases hf : t.fetchPending with
          | true =>
              refine ⟨?_, ?_, ?_⟩ <;> simp [step, hf, fetchComplete, hm, ht]
          | false =>
              have hs : step t (Event.fetchResolve r) = t := by simp [step, hf]
              rw [hs]; exact ⟨hm, ht, hmd⟩
      | scrollEnd =>
          cases hl : t.loading with
          | true =>
              have hs : step t Event.scrollEnd = t := by simp [step, hl]
              rw [hs]; exact ⟨hm, ht, hmd⟩
          | false =>
              cases hmd2 : t.hasMoreData with
              | true => exact absurd (hmd hmd2) (by simp [hl])
              | false =>
                  have hs : step t Event.scrollEnd = t := by simp [step, hl, hmd2]
                  rw [hs]; exact ⟨hm, ht, hmd⟩
      | timerFire =>
          have hs : step t Event.timerFire = t := by simp [step, ht]
          rw [hs]; exact ⟨hm, ht, hmd⟩

/-- An event is id-clean when, if it is a successful fetch resolution,
the stringified ids of the response elements are pairwise distinct.
The code never deduplicates, so distinctness of fetched ids can only
come from the server. -/
def goodEvent : Event → Bool
  | Event.fetchResolve (FetchResult.success data) =>
      decide ((data.map (fun u => RespId.toString u.id)).Nodup)
  | _ => true

/-- States reachable from mount when every successful fetch response
carries pairwise-distinct stringified ids. -/
inductive GoodReachable : ListState → Prop where
  | init : GoodReachable initialState
  | next : (s : ListState) → (e : Event) → GoodReachable s → goodEvent e = true →
      GoodReachable (step s e)

/-- Under id-clean events the collection keeps pairwise-distinct ids
(together with the parts of the core invariant the induction needs). -/
theorem goodReachable_inv {s : ListState} (h : GoodReachable s) :
    s.timers = [] ∧ (s.hasMoreData = true → s.loading = true) ∧
      (s.contacts.map User.id).Nodup := by
  induction h with
  | init => exact ⟨rfl, fun _ => rfl, by decide⟩
  | next t e _ hg ih =>
      obtain ⟨ht, hmd, hnd⟩ := ih
      cases e with
      | refresh =>
          cases hl : t.loading with
          | true =>
              have hs : step t Event.refresh = t := by simp [step, hl]
              rw [hs]; exact ⟨ht, hmd, hnd⟩
          | false =>
              refine ⟨?_, ?_, ?_⟩ <;> simp [step, hl, fetchStart, ht, hnd]
      | fetchResolve r =>
          cases hf : t.fetchPending with
          | true =>
              refine ⟨?_, ?_, ?_⟩
              · simp [step, hf, fetchComplete, ht]
              · simp [step, hf, fetchComplete]
              · cases r with
                | failure =>
                    have hs : (step t (Event.fetchResolve FetchResult.failure)).contacts
                        = mockContacts := by
                      simp [step, hf, fetchComplete, contactsOfResult]
                    rw [hs]; decide
                | success data =>
                    simp only [goodEvent, decide_eq_true_eq] at hg
                    have hs : (step t (Event.fetchResolve (FetchResult.success data))).contacts
                        = data.map mapUser := by
                      simp [step, hf, fetchComplete, contactsOfResult]
                    rw [hs, List.map_map]
                    simpa [Function.comp, mapUser] using hg
          | false =>
              have hs : step t (Event.fetchResolve r) = t := by simp [step, hf]
              rw [hs]; exact ⟨ht, hmd, hnd⟩
      | scrollEnd =>
          cases hl : t.loading with
          | true =>
              have hs : step t Event.scrollEnd = t := by simp [step, hl]
              rw [hs]; exact ⟨ht, hmd, hnd⟩
          | false =>
              cases hmd2 : t.hasMoreData with
              | true => exact absurd (hmd hmd2) (by simp [hl])
              | false =>
                  have hs : step t Event.scrollEnd = t := by simp [step, hl, hmd2]
                  rw [hs]; exact ⟨ht, hmd, hnd⟩
      | timerFire =>
          have hs : step t Event.timerFire = t := by simp [step, ht]
          rw [hs]; exact ⟨ht, hmd, hnd⟩

/-- The contacts after a timer callback: live contacts plus the 5
records generated from the captured list. -/
theorem timerBody_contacts (captured : List User) (s : ListState) :
    (timerBody captured s).contacts = s.contacts ++ additionalContacts captured.length := by
  simp only [timerBody]
  split <;> rfl

/-- The `hasMoreData` flag after a timer callback. -/
theorem timerBody_hasMoreData (captured : List User) (s : ListState) :
    (timerBody captured s).hasMoreData
      = if 30 ≤ captured.length + 5 then false else s.hasMoreData := by
  simp only [timerBody]
  have hlen : (additionalContacts captured.length).length = 5 := rfl
  rw [hlen]
  split <;> rfl

/-- An admitted `onEndReached` dispatch: with the list rendered
(`loading = false`), `hasMoreData` true and no pagination in flight,
`loadMoreContacts` sets `loadingMore` and schedules one timer capturing
the current contacts. -/
theorem scrollEnd_admitted (s : ListState) (h1 : s.hasMoreData = true)
    (h2 : s.loadingMore = false) (h3 : s.loading = false) (h4 : s.timers = []) :
    step s Event.scrollEnd
      = { s with loadingMore := true, timers := [s.contacts] } := by
  simp [step, h3, h1, loadMoreContacts, h2, h4]

/-- Firing the single pending timer runs its callback on the rest of
the queue. -/
theorem step_timerFire_cons (c : List User) (s : ListState)
    (h : s.timers = c :: []) :
    step s Event.timerFire = timerBody c { s with timers := [] } := by
  simp [step, h]

/-- Concrete ready state with the 10 mock contacts and pagination still
open, used to instantiate the pagination theorems. -/
def pagState10 : ListState :=
  { contacts := mockContacts
    loading := false
    loadingMore := false
    hasMoreData := true
    fetchPending := false
    timers := [] }

/-- A throwaway record used to build a 27-element collection. -/
def padUser : User := { id := "0", name := "Pad", phone := "(000) 000-0000" }

/-- Concrete state with 27 contacts and pagination still open. -/
def pagState27 : ListState :=
  { contacts := List.replicate 27 padUser
    loading := false
    loadingMore := false
    hasMoreData := true
    fetchPending := false
    timers := [] }

/-- Concrete quiescent state used to instantiate the refresh theorem. -/
def readyState : ListState :=
  { contacts := mockContacts
    loading := false
    loadingMore := false
    hasMoreData := false
    fetchPending := false
    timers := [] }

/-- A one-element response used to instantiate the success theorem. -/
def sampleResponse : List RespUser :=
  [ { id := RespId.num 7, name := "Ann Lee", phone := "555-0000" } ]

/-- A response whose two elements share the stringified id "1". -/
def dupResponse : List RespUser :=
  [ { id := RespId.num 1, name := "Alice", phone := "111" },
    { id := RespId.num 1, name := "Bob", phone := "222" } ]

/-- A response with distinct stringified ids. -/
def okResponse : List RespUser :=
  [ { id := RespId.num 1, name := "Alice", phone := "111" },
    { id := RespId.num 2, name := "Bob", phone := "222" } ]

/-- C1: when the in-flight fetch fails (non-2xx status or a thrown
request/parse error), the resulting collection is exactly the fixed
10-entry mock dataset with ids "1".."10" and names John Smith through
Karen White, and `hasMoreData` is false afterwards. -/
theorem fetch_failure_yields_mock_dataset (s : ListState)
    (h : s.fetchPending = true) :
    (step s (Event.fetchResolve FetchResult.failure)).contacts = mockContacts ∧
    (step s (Event.fetchResolve FetchResult.failure)).hasMoreData = false ∧
    mockContacts.length = 10 ∧
    mockContacts.map User.id = ["1", "2", "3", "4", "5", "6", "7", "8", "9", "10"] ∧
    mockContacts.map User.name
      = ["John Smith", "Sarah Johnson", "Michael Brown", "Emily Davis",
         "David Wilson", "Lisa Taylor", "Robert Anderson", "Jennifer Thomas",
         "Daniel Jackson", "Karen White"] := by
  refine ⟨?_, ?_, by decide, by decide, by decide⟩ <;>
    simp [step, h, fetchComplete, contactsOfResult]

/-- C1 witness: the mount-time fetch failing lands on the mock dataset. -/
theorem fetch_failure_yields_mock_dataset_witness :
    initialState.fetchPending = true ∧
    (step initialState (Event.fetchResolve FetchResult.failure)).contacts = mockContacts :=
  ⟨rfl, (fetch_failure_yields_mock_dataset initialState rfl).1⟩

/-- C2: when the in-flight fetch succeeds with a JSON array, the
collection has the same length as the response, and at every index the
record id is the string form of the source id while name and phone are
copied verbatim. -/
theorem fetch_success_maps_response (s : ListState) (data : List RespUser)
    (h : s.fetchPending = true) :
    (step s (Event.fetchResolve (FetchResult.success data))).contacts.length
        = data.length ∧
    ∀ i : Nat,
      ((step s (Event.fetchResolve (FetchResult.success data))).contacts[i]?).map User.id
          = (data[i]?).map (fun u => RespId.toString u.id) ∧
      ((step s (Event.fetchResolve (FetchResult.success data))).contacts[i]?).map User.name
          = (data[i]?).map RespUser.name ∧
      ((step s (Event.fetchResolve (FetchResult.success data))).contacts[i]?).map User.phone
          = (data[i]?).map RespUser.phone := by
  have hc : (step s (Event.fetchResolve (FetchResult.success data))).contacts
      = data.map mapUser := by
    simp [step, h, fetchComplete, contactsOfResult]
  refine ⟨by rw [hc]; simp, fun i => ?_⟩
  rw [hc]
  refine ⟨?_, ?_, ?_⟩ <;> simp only [List.getElem?_map, Option.map_map] <;>
    cases data[i]? <;> rfl

/-- C2 witness: a one-element response yields a one-element collection. -/
theorem fetch_success_maps_response_witness :
    initialState.fetchPending = true ∧
    (step initialState (Event.fetchResolve (FetchResult.success sampleResponse))).contacts.length
      = sampleResponse.length :=
  ⟨rfl, (fetch_success_maps_response initialState sampleResponse rfl).1⟩

/-- C3: an admitted loadMore (hasMoreData true, loadingMore false, list
rendered, no timer pending) appends, once its timer fires, exactly 5
records with ids currentCount+1 .. currentCount+5, names
"Additional User <id>", and phones "(999) iii-iiii" for offsets
i = 0..4, where currentCount is the collection length. -/
theorem loadMore_appends_five_synthetic (s : ListState)
    (h1 : s.hasMoreData = true) (h2 : s.loadingMore = false)
    (h3 : s.loading = false) (h4 : s.timers = []) :
    (step (step s Event.scrollEnd) Event.timerFire).contacts
        = s.contacts ++ additionalContacts s.contacts.length ∧
    (additionalContacts s.contacts.length).length = 5 ∧
    (additionalContacts s.contacts.length).map User.id
        = [Nat.repr (s.contacts.length + 1), Nat.repr (s.contacts.length + 2),
           Nat.repr (s.contacts.length + 3), Nat.repr (s.contacts.length + 4),
           Nat.repr (s.contacts.length + 5)] ∧
    (additionalContacts s.contacts.length).map User.name
        = ["Additional User " ++ Nat.repr (s.contacts.length + 1),
           "Additional User " ++ Nat.repr (s.contacts.length + 2),
           "Additional User " ++ Nat.repr (s.contacts.length + 3),
           "Additional User " ++ Nat.repr (s.contacts.length + 4),
           "Additional User " ++ Nat.repr (s.contacts.length + 5)] ∧
    (additionalContacts s.contacts.length).map User.phone
        = ["(999) 000-0000", "(999) 111-1111", "(999) 222-2222",
           "(999) 333-3333", "(999) 444-4444"] := by
  refine ⟨?_, rfl, rfl, rfl, rfl⟩
  rw [scrollEnd_admitted s h1 h2 h3 h4, step_timerFire_cons s.contacts _ rfl,
    timerBody_contacts]

/-- C3 witness: from 10 contacts the generated ids are "11".."15". -/
theorem loadMore_appends_five_synthetic_witness :
    pagState10.hasMoreData = true ∧ pagState10.loadingMore = false ∧
    pagState10.loading = false ∧ pagState10.timers = [] ∧
    (additionalContacts pagState10.contacts.length).map User.id
      = ["11", "12", "13", "14", "15"] := by
  have h := loadMore_appends_five_synthetic pagState10 rfl rfl rfl rfl
  refine ⟨rfl, rfl, rfl, rfl, ?_⟩
  rw [h.2.2.1]
  decide

/-- C4: when hasMoreData is false or loadingMore is true, calling
`loadMoreContacts` returns the state unchanged: same collection and
same three flags (indeed the whole state is equal). -/
theorem loadMore_guard_noop (s : ListState)
    (h : s.hasMoreData = false ∨ s.loadingMore = true) :
    loadMoreContacts s = s := by
  rcases h with h | h <;> simp [loadMoreContacts, h]

/-- C4 witness: with a pagination already in flight the call is a
no-op. -/
theorem loadMore_guard_noop_witness :
    ({ initialState with loadingMore := true } : ListState).loadingMore = true ∧
    loadMoreContacts { initialState with loadingMore := true }
      = { initialState with loadingMore := true } :=
  ⟨rfl, loadMore_guard_noop { initialState with loadingMore := true } (Or.inr rfl)⟩

/-- C5: after an admitted loadMore lands, the collection grew by 5 and
hasMoreData holds exactly when currentCount + 5 < 30. -/
theorem loadMore_recomputes_hasMoreData (s : ListState)
    (h1 : s.hasMoreData = true) (h2 : s.loadingMore = false)
    (h3 : s.loading = false) (h4 : s.timers = []) :
    (step (step s Event.scrollEnd) Event.timerFire).contacts.length
        = s.contacts.length + 5 ∧
    ((step (step s Event.scrollEnd) Event.timerFire).hasMoreData = true
        ↔ s.contacts.length + 5 < 30) := by
  rw [scrollEnd_admitted s h1 h2 h3 h4, step_timerFire_cons s.contacts _ rfl]
  constructor
  · rw [timerBody_contacts]
    simp [additionalContacts]
  · rw [timerBody_hasMoreData]
    by_cases hc : 30 ≤ s.contacts.length + 5
    · rw [if_pos hc]
      simp
      omega
    · rw [if_neg hc]
      simp [h1]
      omega

/-- C5 witness: from 27 contacts one admitted loadMore yields 32
records and hasMoreData false. -/
theorem loadMore_recomputes_hasMoreData_witness :
    pagState27.hasMoreData = true ∧ pagState27.loadingMore = false ∧
    pagState27.loading = false ∧ pagState27.timers = [] ∧
    (step (step pagState27 Event.scrollEnd) Event.timerFire).contacts.length = 32 ∧
    (step (step pagState27 Event.scrollEnd) Event.timerFire).hasMoreData = false := by
  have h := loadMore_recomputes_hasMoreData pagState27 rfl rfl rfl rfl
  refine ⟨rfl, rfl, rfl, rfl, ?_, ?_⟩
  · rw [h.1]
    decide
  · cases hb : (step (step pagState27 Event.scrollEnd) Event.timerFire).hasMoreData with
    | false => rfl
    | true => exact absurd (h.2.mp hb) (by decide)

/-- C6: in every reachable state the flags `loading` and `loadingMore`
are never both true. -/
theorem loading_loadingMore_never_both (s : ListState) (h : Reachable s) :
    ¬ (s.loading = true ∧ s.loadingMore = true) := by
  intro hc
  have h1 := (reachable_inv h).1
  rw [hc.2] at h1
  exact absurd h1 (by decide)

/-- C6 witness: the mutual exclusion holds at the mount state. -/
theorem loading_loadingMore_never_both_witness :
    Reachable initialState ∧
    ¬ (initialState.loading = true ∧ initialState.loadingMore = true) :=
  ⟨Reachable.init, loading_loadingMore_never_both initialState Reachable.init⟩

/-- C7: once `hasMoreData` is false, no event of the session ever makes
it true again. -/
theorem hasMoreData_never_returns (s : ListState) (e : Event)
    (h : s.hasMoreData = false) :
    (step s e).hasMoreData = false := by
  cases e with
  | refresh => cases hl : s.loading <;> simp [step, hl, fetchStart, h]
  | fetchResolve r => cases hf : s.fetchPending <;> simp [step, hf, fetchComplete, h]
  | scrollEnd => cases hl : s.loading <;> simp [step, hl, h]
  | timerFire =>
      cases ht : s.timers with
      | nil => simp [step, ht, h]
      | cons c rest => simp [step, ht, timerBody_hasMoreData, h]

/-- C7 witness: after the flag is cleared a refresh leaves it false. -/
theorem hasMoreData_never_returns_witness :
    ({ initialState with hasMoreData := false } : ListState).hasMoreData = false ∧
    (step { initialState with hasMoreData := false } Event.refresh).hasMoreData = false :=
  ⟨rfl, hasMoreData_never_returns { initialState with hasMoreData := false }
    Event.refresh rfl⟩

/-- C8 counterexample: a successful fetch whose response repeats id 1
is reachable in one step from mount and leaves the collection with ids
["1", "1"], which are not pairwise distinct.  The code copies fetched
ids verbatim and never deduplicates. -/
theorem duplicate_ids_reachable :
    Reachable (step initialState (Event.fetchResolve (FetchResult.success dupResponse))) ∧
    (step initialState (Event.fetchResolve (FetchResult.success dupResponse))).contacts.map
        User.id = ["1", "1"] ∧
    ¬ ((step initialState
        (Event.fetchResolve (FetchResult.success dupResponse))).contacts.map User.id).Nodup :=
  ⟨Reachable.next initialState (Event.fetchResolve (FetchResult.success dupResponse))
      Reachable.init,
   by decide, by decide⟩

/-- C8 amended: in every reachable state of a session in which every
successful fetch response carries pairwise-distinct stringified ids,
the ids in the collection are pairwise distinct (the fallback dataset
and the pagination generator never break distinctness on their own). -/
theorem ids_nodup_under_distinct_responses (s : ListState) (h : GoodReachable s) :
    (s.contacts.map User.id).Nodup :=
  (goodReachable_inv h).2.2

/-- C8 amended witness: a distinct-id response keeps the invariant. -/
theorem ids_nodup_under_distinct_responses_witness :
    GoodReachable (step initialState (Event.fetchResolve (FetchResult.success okResponse))) ∧
    ((step initialState
        (Event.fetchResolve (FetchResult.success okResponse))).contacts.map User.id).Nodup :=
  ⟨GoodReachable.next initialState (Event.fetchResolve (FetchResult.success okResponse))
      GoodReachable.init (by decide),
   ids_nodup_under_distinct_responses _
     (GoodReachable.next initialState (Event.fetchResolve (FetchResult.success okResponse))
       GoodReachable.init (by decide))⟩

/-- C9: a refresh first sets `loading` to true without touching the
collection; when the new fetch settles (success or failure), `loading`
is false and the collection is replaced by the fetched or fallback
records, independently of what it held before. -/
theorem refresh_replaces_collection (s : ListState) (r : FetchResult)
    (h : s.loading = false) :
    (step s Event.refresh).loading = true ∧
    (step s Event.refresh).contacts = s.contacts ∧
    (step (step s Event.refresh) (Event.fetchResolve r)).loading = false ∧
    (step (step s Event.refresh) (Event.fetchResolve r)).contacts
      = contactsOfResult r := by
  have h1 : step s Event.refresh = fetchStart s := by simp [step, h]
  rw [h1]
  refine ⟨rfl, rfl, ?_, ?_⟩ <;> simp [step, fetchStart, fetchComplete]

/-- C9 witness: refreshing a quiescent 10-contact state. -/
theorem refresh_replaces_collection_witness :
    readyState.loading = false ∧
    (step readyState Event.refresh).loading = true ∧
    (step (step readyState Event.refresh) (Event.fetchResolve FetchResult.failure)).contacts
      = contactsOfResult FetchResult.failure := by
  have h := refresh_replaces_collection readyState FetchResult.failure rfl
  exact ⟨rfl, h.1, h.2.2.2⟩

/-- C10: every settled fetch leaves `hasMoreData` false, and in every
reachable state both the scroll-to-end dispatch and a timer firing are
no-ops, so the pagination generator never appends to the displayed
list in a real session. -/
theorem pagination_path_dead :
    (∀ (s : ListState) (r : FetchResult), s.fetchPending = true →
        (step s (Event.fetchResolve r)).hasMoreData = false) ∧
    (∀ s : ListState, Reachable s → step s Event.scrollEnd = s) ∧
    (∀ s : ListState, Reachable s → step s Event.timerFire = s) := by
  refine ⟨?_, ?_, ?_⟩
  · intro s r h
    simp [step, h, fetchComplete]
  · intro s hr
    obtain ⟨-, -, hmd⟩ := reachable_inv hr
    cases hl : s.loading with
    | true => simp [step, hl]
    | false =>
        cases hm : s.hasMoreData with
        | true => exact absurd (hmd hm) (by simp [hl])
        | false => simp [step, hl, hm]
  · intro s hr
    obtain ⟨-, ht, -⟩ := reachable_inv hr
    simp [step, ht]

/-- C10 witness: at mount, a failing fetch clears the flag, and the
scroll and timer events do nothing. -/
theorem pagination_path_dead_witness :
    initialState.fetchPending = true ∧ Reachable initialState ∧
    (step initialState (Event.fetchResolve FetchResult.failure)).hasMoreData = false ∧
    step initialState Event.scrollEnd = initialState ∧
    step initialState Event.timerFire = initialState :=
  ⟨rfl, Reachable.init,
   pagination_path_dead.1 initialState FetchResult.failure rfl,
   pagination_path_dead.2.1 initialState Reachable.init,
   pagination_path_dead.2.2 initialState Reachable.init⟩

end ContactApp
